import Mathlib

/-!
Shallow embedding of the freight-price prediction service
(src/ml/api/main.py, the `predict` endpoint) and theorems checking the
specification's claims against it.

Modelling conventions:
* JSON-like request values are `Val`: numbers are exact rationals
  (floating-point representation error is abstracted away), strings
  carry their text, and every other JSON value (null, arrays, objects)
  is `Val.other t` carrying the Python type name it would print as.
* Python exceptions are `PyExc`.  `fastapi.HTTPException` subclasses
  `Exception`, which is essential to the control flow of the endpoint:
  an `HTTPException` raised inside the `try:` block is caught by the
  trailing `except Exception` handler.  `str` of an `HTTPException`
  is modelled as `"<status>: <detail>"` (starlette's `__str__`).
* `float(x)` is `pyFloat`: numbers coerce to themselves, strings go
  through `parseFloat` (a model of Python float-literal parsing for the
  fragment exercised here: optional sign, digits, optional fractional
  part; exponents, inf/nan and surrounding whitespace are omitted) and
  raise `ValueError` on failure, any other value raises `TypeError`.
* `pd.DataFrame([features])[feature_names]` is `alignFeatures`: it
  selects the named columns in order and raises a `KeyError` listing
  the missing columns when any requested column is absent.
* The loaded model is a `Model`: its `feature_names_in_` list and a
  `predict` function from the aligned single-row vector to either a
  scalar or a raised exception.
* `round(x, 2)` is `round2`, Python's round-half-to-even at two
  decimal places, in exact rational arithmetic.
-/

/-- A single quote character, used to build Python error/repr strings. -/
def sglq : String := String.singleton (Char.ofNat 39)

/-- A JSON-like value as received by the endpoint (`Dict[str, Any]`). -/
inductive Val where
  | num (q : Rat)
  | str (s : String)
  | other (pyTypeName : String)
deriving DecidableEq

/-- A Python exception, as far as the endpoint's handlers distinguish them. -/
inductive PyExc where
  | httpException (status : Nat) (detail : String)
  | valueError (msg : String)
  | typeError (msg : String)
  | keyError (msg : String)
  | otherExc (msg : String)
deriving DecidableEq

/-- Python `repr` of a plain string (used by `str` of a `KeyError`):
quotes with a double quote when the text contains a single quote. -/
def pyRepr (s : String) : String :=
  if s.data.contains (Char.ofNat 39) then "\"" ++ s ++ "\"" else sglq ++ s ++ sglq

/-- Python `str` of an exception. For `HTTPException` this is starlette's
`__str__`, namely `"<status_code>: <detail>"`; for `KeyError` it is the
`repr` of the key argument; for the rest it is the message itself. -/
def pyStr : PyExc → String
  | .httpException st d => toString st ++ ": " ++ d
  | .valueError m => m
  | .typeError m => m
  | .keyError m => pyRepr m
  | .otherExc m => m

/-- Digit list to natural number, most significant first. -/
def digitsToNat (l : List Char) : Nat :=
  l.foldl (fun a c => a * 10 + (c.toNat - 48)) 0

/-- Model of Python float-literal parsing (no sign): digits, optionally a
dot with further digits, at least one digit overall. -/
def parseFloatCore (l : List Char) : Option Rat :=
  let intPart := l.takeWhile Char.isDigit
  let rest := l.dropWhile Char.isDigit
  match rest with
  | [] => if intPart.isEmpty then none else some (digitsToNat intPart : Rat)
  | c :: frac =>
    if c = Char.ofNat 46 ∧ frac.all Char.isDigit ∧ (¬ intPart.isEmpty ∨ ¬ frac.isEmpty) then
      some ((digitsToNat intPart : Rat) + (digitsToNat frac : Rat) / (10 ^ frac.length : Rat))
    else none

/-- Model of Python `float` applied to a string: optional sign, then
`parseFloatCore`. Returns `none` when Python would raise `ValueError`. -/
def parseFloat (s : String) : Option Rat :=
  match s.data with
  | [] => none
  | c :: rest =>
    if c = Char.ofNat 45 then (parseFloatCore rest).map (fun q => -q)
    else if c = Char.ofNat 43 then parseFloatCore rest
    else parseFloatCore s.data

/-- Python `float(x)` on a JSON value: numbers coerce, strings parse or
raise `ValueError`, anything else raises `TypeError`. -/
def pyFloat : Val → Except PyExc Rat
  | .num q => .ok q
  | .str s =>
    match parseFloat s with
    | some q => .ok q
    | none => .error (.valueError ("could not convert string to float: " ++ sglq ++ s ++ sglq))
  | .other t =>
    .error (.typeError ("float() argument must be a string or a real number, not " ++ sglq ++ t ++ sglq))

/-- The raw request body: a JSON object, field name to value. -/
def ReqData : Type := List (String × Val)

/-- Python `data[f]` modulo the preceding presence check (total with a
default that is unreachable after `checkRequired` succeeds). -/
def getVal (data : ReqData) (f : String) : Val :=
  (List.lookup f data).getD (Val.other "missing")

/-- The required-field list, in the order the endpoint iterates it. -/
def required_fields : List String :=
  ["distance_km", "weight_kg", "cargo_type", "urgency_days"]

/-- The closed cargo-type set, in source order. -/
def cargo_types : List String := ["general", "fragile", "perishable"]

/-- Python `str` of a list of strings, e.g.
`[ (quote)general(quote), ... ]` with single quotes. -/
def pyListStr (xs : List String) : String :=
  "[" ++ String.intercalate ", " (xs.map (fun s => sglq ++ s ++ sglq)) ++ "]"

/-- The detail string of the invalid-cargo-type `HTTPException`. -/
def invalidCargoDetail : String :=
  "Invalid cargo_type. Must be one of: " ++ pyListStr cargo_types

/-- The first field of `fields` absent from the request, if any —
the `for field in required_fields` loop of the endpoint. -/
def firstMissing (data : ReqData) : List String → Option String
  | [] => none
  | f :: fs => if (List.lookup f data).isNone then some f else firstMissing data fs

/-- The required-field loop: raises `HTTPException 422` naming the first
missing field, in `required_fields` order. -/
def checkRequired (data : ReqData) : Except PyExc Unit :=
  match firstMissing data required_fields with
  | some f => .error (.httpException 422 ("Missing required field: " ++ f))
  | none => .ok ()

/-- The cargo-type membership check: `cargo_type not in cargo_types`
raises `HTTPException 422`; a non-string value equals no member. -/
def checkCargo (data : ReqData) : Except PyExc Unit :=
  match getVal data "cargo_type" with
  | .str s => if s ∈ cargo_types then .ok () else .error (.httpException 422 invalidCargoDetail)
  | _ => .error (.httpException 422 invalidCargoDetail)

/-- The raw cargo value as a string (after `checkCargo` it is always a
string in the closed set; the default makes the definition total). -/
def getCargoStr (data : ReqData) : String :=
  match getVal data "cargo_type" with
  | .str s => s
  | _ => ""

/-- The three one-hot flags, in the order of the `features` dict literal. -/
def cargoFlags (c : String) : List (String × Rat) :=
  [("cargo_type_perishable", if c = "perishable" then 1 else 0),
   ("cargo_type_fragile", if c = "fragile" then 1 else 0),
   ("cargo_type_general", if c = "general" then 1 else 0)]

/-- The `features` dict: the three continuous fields coerced by `float`
in literal order, then the three one-hot flags. -/
def buildFeatures (data : ReqData) : Except PyExc (List (String × Rat)) := do
  let d ← pyFloat (getVal data "distance_km")
  let w ← pyFloat (getVal data "weight_kg")
  let u ← pyFloat (getVal data "urgency_days")
  pure ([("distance_km", d), ("weight_kg", w), ("urgency_days", u)] ++ cargoFlags (getCargoStr data))

/-- Column selection `pd.DataFrame([features])[feature_names]`: values in
`names` order; a `KeyError` listing all missing columns if any is absent. -/
def alignFeatures (feats : List (String × Rat)) (names : List String) : Except PyExc (List Rat) :=
  let missing := names.filter (fun n => (List.lookup n feats).isNone)
  if missing.isEmpty then .ok (names.map (fun n => (List.lookup n feats).getD 0))
  else .error (.keyError (pyListStr missing ++ " not in index"))

/-- The encoded-and-aligned feature vector handed to the model. -/
def alignedVector (data : ReqData) (names : List String) : Except PyExc (List Rat) := do
  let feats ← buildFeatures data
  alignFeatures feats names

/-- The loaded model artifact: its training-time feature order
(`feature_names_in_`) and its `predict` on one aligned row, which may
raise any exception. -/
structure Model where
  feature_names : List String
  predict : List Rat → Except PyExc Rat

/-- Round half to even of a rational (Python `round` to zero digits). -/
def roundHalfEven (q : Rat) : Int :=
  let f := ⌊q⌋
  let r := q - (f : Rat)
  if r < (1 : Rat) / 2 then f
  else if (1 : Rat) / 2 < r then f + 1
  else if f % 2 = 0 then f else f + 1

/-- Python `round(x, 2)` in exact rational arithmetic. -/
def round2 (q : Rat) : Rat := ((roundHalfEven (q * 100) : Int) : Rat) / 100

/-- The body of the `try:` block: validation, encoding, alignment,
prediction, rounding; any raised exception is the `.error` case. -/
def predictBody (m : Model) (data : ReqData) : Except PyExc Rat := do
  checkRequired data
  checkCargo data
  let vec ← alignedVector data m.feature_names
  let price ← m.predict vec
  pure (round2 price)

/-- The endpoint's outcome: a 200 success body with its sole field, or
an error response with a status code and a detail string. -/
inductive PredictResult where
  | success (predicted_price : Rat)
  | error (status : Nat) (detail : String)
deriving DecidableEq

/-- The `predict` endpoint: the `try:` body, then the two handlers.
`except ValueError` re-raises as 422 with an Invalid-input-format
detail; `except Exception` catches every other exception — including
the endpoint's own 422 `HTTPException`s, since `HTTPException`
subclasses `Exception` — and re-raises as 500 with `str(e)`. -/
def predictEndpoint (m : Model) (data : ReqData) : PredictResult :=
  match predictBody m data with
  | .ok p => .success p
  | .error (.valueError msg) => .error 422 ("Invalid input format: " ++ msg)
  | .error e => .error 500 (pyStr e)

/-- The feature schema named by the spec's alignment example. -/
def featureSchema6 : List String :=
  ["distance_km", "weight_kg", "urgency_days",
   "cargo_type_perishable", "cargo_type_fragile", "cargo_type_general"]

/-- A benign concrete model: the spec's schema, constant output. -/
def mDefault : Model := { feature_names := featureSchema6, predict := fun _ => .ok 0 }

/-- Whether `nd` occurs as a contiguous substring of `l` (used to state
which names a message does or does not mention). -/
def listContainsSub (nd : List Char) : List Char → Bool
  | [] => nd.isEmpty
  | c :: cs => nd.isPrefixOf (c :: cs) || listContainsSub nd cs

instance {ε α : Type} [DecidableEq ε] [DecidableEq α] : DecidableEq (Except ε α) := fun a b =>
  match a, b with
  | .ok x, .ok y => if h : x = y then .isTrue (by rw [h]) else .isFalse (by simp [h])
  | .error x, .error y => if h : x = y then .isTrue (by rw [h]) else .isFalse (by simp [h])
  | .ok _, .error _ => .isFalse (by simp)
  | .error _, .ok _ => .isFalse (by simp)

/-- The spec's running example request:
distance 500, weight 2000, fragile, urgency 5. -/
def reqSpecExample : ReqData :=
  [("distance_km", .num 500), ("weight_kg", .num 2000),
   ("cargo_type", .str "fragile"), ("urgency_days", .num 5)]

/-- A request missing only the distance_km field. -/
def reqMissingDistance : ReqData :=
  [("weight_kg", .num 1), ("cargo_type", .str "general"), ("urgency_days", .num 1)]

/-- A request whose cargo_type is outside the closed set. -/
def reqHazardous : ReqData :=
  [("distance_km", .num 10), ("weight_kg", .num 1),
   ("cargo_type", .str "hazardous"), ("urgency_days", .num 1)]

/-- A model whose output on every row is the spec's example 123.4567. -/
def mC6 : Model :=
  { feature_names := featureSchema6, predict := fun _ => .ok (1234567 / 10000 : Rat) }

/-- A request whose distance_km is the string abc. -/
def reqAbcDistance : ReqData :=
  [("distance_km", .str "abc"), ("weight_kg", .num 1),
   ("cargo_type", .str "general"), ("urgency_days", .num 1)]

/-- A request whose distance_km is JSON null (Python None). -/
def reqNullDistance : ReqData :=
  [("distance_km", .other "NoneType"), ("weight_kg", .num 1),
   ("cargo_type", .str "general"), ("urgency_days", .num 1)]

/-- A request whose distance_km is a JSON array (Python list). -/
def reqListDistance : ReqData :=
  [("distance_km", .other "list"), ("weight_kg", .num 1),
   ("cargo_type", .str "general"), ("urgency_days", .num 1)]

/-- A model that raises ValueError from predict (as the underlying
library does for NaN input, for instance). -/
def mRaisesValueError : Model :=
  { feature_names := featureSchema6,
    predict := fun _ => .error (.valueError "Input contains NaN") }

/-- A model whose schema demands a feature the encoder never produces. -/
def mDrifted : Model :=
  { feature_names := featureSchema6 ++ ["extra_feature"], predict := fun _ => .ok 0 }

/-- A model that raises a non-ValueError exception from predict. -/
def mRaisesOther : Model :=
  { feature_names := featureSchema6, predict := fun _ => .error (.otherExc "boom") }

/-- A request with both an out-of-set cargo_type and a non-numeric
distance_km. -/
def reqHazardousAbc : ReqData :=
  [("distance_km", .str "abc"), ("weight_kg", .num 1),
   ("cargo_type", .str "hazardous"), ("urgency_days", .num 1)]

/-- The spec's example request with an extra key appended. -/
def reqWithExtra : ReqData :=
  [("distance_km", .num 500), ("weight_kg", .num 2000),
   ("cargo_type", .str "fragile"), ("urgency_days", .num 5),
   ("customer_note", .str "rush order")]

example : parseFloat "abc" = none := by decide
example : parseFloat "500" = some 500 := by decide
example : round2 (1234567 / 10000 : Rat) = 12346 / 100 := by
  norm_num [round2, roundHalfEven]

theorem ebind_ok {α β : Type} (x : α) (f : α → Except PyExc β) :
    (Except.ok x : Except PyExc α) >>= f = f x := rfl

theorem ebind_err {α β : Type} (e : PyExc) (f : α → Except PyExc β) :
    (Except.error e : Except PyExc α) >>= f = Except.error e := rfl

theorem isPrefixOf_self (l : List Char) : l.isPrefixOf l = true := by
  induction l with
  | nil => rfl
  | cons c cs ih => simp [List.isPrefixOf, ih]

theorem listContainsSub_append_self (pre nd : List Char) :
    listContainsSub nd (pre ++ nd) = true := by
  induction pre with
  | nil =>
    cases nd with
    | nil => rfl
    | cons c cs => simp [listContainsSub, isPrefixOf_self]
  | cons c cs ih => simp [listContainsSub, ih]

theorem checkRequired_ok (data : ReqData) (v1 v2 v3 v4 : Val)
    (h1 : List.lookup "distance_km" data = some v1)
    (h2 : List.lookup "weight_kg" data = some v2)
    (h3 : List.lookup "cargo_type" data = some v3)
    (h4 : List.lookup "urgency_days" data = some v4) :
    checkRequired data = .ok () := by
  simp [checkRequired, required_fields, firstMissing, h1, h2, h3, h4]

theorem checkCargo_ok (data : ReqData) (c : String)
    (h : List.lookup "cargo_type" data = some (.str c)) (hc : c ∈ cargo_types) :
    checkCargo data = .ok () := by
  simp [checkCargo, getVal, h, hc]

/-- C1: the spec says a request lacking a required field gets status 422
with detail naming the field.  The endpoint does raise
HTTPException 422 with that detail, but HTTPException subclasses
Exception, so the except-Exception handler of the same try block
catches it and re-raises it as status 500 whose detail is str of the
caught exception.  Evaluated at a request missing distance_km. -/
theorem c1_missing_field_surfaces_as_500 :
    predictEndpoint mDefault reqMissingDistance =
      .error 500 "422: Missing required field: distance_km" := by decide

/-- C2: the spec says an out-of-set cargo_type gets status 422 listing
the allowed values.  The allowed values are listed verbatim in the
detail, but the 422 HTTPException is swallowed by the except-Exception
handler and surfaces as a 500. -/
theorem c2_invalid_cargo_surfaces_as_500 :
    predictEndpoint mDefault reqHazardous = .error 500 ("422: " ++ invalidCargoDetail) ∧
    listContainsSub (pyListStr cargo_types).data
      ("422: " ++ invalidCargoDetail).data = true := by decide

/-- C4: with the spec's FeatureSchema and the spec's example request,
the encoded-then-aligned vector handed to the model is exactly
the sequence 500, 2000, 5, 0, 1, 0 — no model involved. -/
theorem c4_aligned_vector_spec_example :
    alignedVector reqSpecExample featureSchema6 =
      .ok [500, 2000, 5, 0, 1, 0] := by decide

/-- C5: for every request whose numeric fields are numbers and whose
cargo_type is in the closed set, the features dict passes the three
continuous fields through unchanged, has exactly 6 entries, and sets
exactly one of the three one-hot flags to 1 and the other two to 0. -/
theorem c5_one_hot_encoding (data : ReqData) (d w u : Rat) (c : String)
    (h1 : List.lookup "distance_km" data = some (.num d))
    (h2 : List.lookup "weight_kg" data = some (.num w))
    (h3 : List.lookup "cargo_type" data = some (.str c))
    (h4 : List.lookup "urgency_days" data = some (.num u))
    (hc : c ∈ cargo_types) :
    buildFeatures data =
      .ok ([("distance_km", d), ("weight_kg", w), ("urgency_days", u)] ++ cargoFlags c) ∧
    ([("distance_km", d), ("weight_kg", w), ("urgency_days", u)] ++ cargoFlags c).length = 6 ∧
    ((cargoFlags c).countP fun p => decide (p.2 = 1)) = 1 ∧
    ((cargoFlags c).countP fun p => decide (p.2 = 0)) = 2 := by
  refine ⟨?_, ?_, ?_, ?_⟩
  · simp [buildFeatures, getVal, getCargoStr, h1, h2, h3, h4, pyFloat, ebind_ok]
  · simp [cargoFlags]
  · simp [cargo_types] at hc
    rcases hc with rfl | rfl | rfl <;> decide
  · simp [cargo_types] at hc
    rcases hc with rfl | rfl | rfl <;> decide

/-- Witness for C5 at the spec's example request. -/
theorem c5_witness :
    buildFeatures reqSpecExample =
      .ok ([("distance_km", 500), ("weight_kg", 2000), ("urgency_days", 5)] ++
        cargoFlags "fragile") ∧
    ([("distance_km", (500 : Rat)), ("weight_kg", 2000), ("urgency_days", 5)] ++
      cargoFlags "fragile").length = 6 ∧
    ((cargoFlags "fragile").countP fun p => decide (p.2 = 1)) = 1 ∧
    ((cargoFlags "fragile").countP fun p => decide (p.2 = 0)) = 2 :=
  c5_one_hot_encoding reqSpecExample 500 2000 5 "fragile" rfl rfl rfl rfl (by decide)

/-- C6: whenever validation, alignment and the model call all succeed,
the response is a success whose sole field is the model's scalar output
rounded by round2 (Python round at 2 digits), and the rounded value has
at most 2 decimal places: multiplied by 100 its denominator is 1. -/
theorem c6_success_rounded (m : Model) (data : ReqData) (vec : List Rat) (q : Rat)
    (hreq : checkRequired data = .ok ())
    (hcar : checkCargo data = .ok ())
    (hal : alignedVector data m.feature_names = .ok vec)
    (hp : m.predict vec = .ok q) :
    predictEndpoint m data = .success (round2 q) ∧ (round2 q * 100).den = 1 := by
  constructor
  · simp [predictEndpoint, predictBody, hreq, hcar, hal, hp, ebind_ok]
  · have h : round2 q * 100 = ((roundHalfEven (q * 100) : Int) : Rat) := by
      rw [round2, div_mul_cancel₀]
      norm_num
    rw [h]
    exact Rat.den_intCast _

/-- Witness for C6: the spec's example request against a model that
outputs 123.4567. -/
theorem c6_witness :
    predictEndpoint mC6 reqSpecExample = .success (round2 (1234567 / 10000 : Rat)) ∧
    (round2 (1234567 / 10000 : Rat) * 100).den = 1 :=
  c6_success_rounded mC6 reqSpecExample [500, 2000, 5, 0, 1, 0] (1234567 / 10000 : Rat)
    (by decide) (by decide) (by decide) rfl

theorem predictBody_distance_coercion_fail (m : Model) (data : ReqData) (e : PyExc)
    (hreq : checkRequired data = .ok ())
    (hcar : checkCargo data = .ok ())
    (hd : pyFloat (getVal data "distance_km") = .error e) :
    predictBody m data = .error e := by
  simp [predictBody, alignedVector, buildFeatures, hreq, hcar, hd, ebind_ok, ebind_err]

theorem endpoint_invalid_format (m : Model) (data : ReqData) (s c : String) (v2 v4 : Val)
    (h1 : List.lookup "distance_km" data = some (.str s))
    (h2 : List.lookup "weight_kg" data = some v2)
    (h3 : List.lookup "cargo_type" data = some (.str c))
    (h4 : List.lookup "urgency_days" data = some v4)
    (hc : c ∈ cargo_types) (hs : parseFloat s = none) :
    predictEndpoint m data =
      .error 422 ("Invalid input format: could not convert string to float: " ++
        sglq ++ s ++ sglq) := by
  have hreq := checkRequired_ok data _ _ _ _ h1 h2 h3 h4
  have hcar := checkCargo_ok data c h3 hc
  have hd : pyFloat (getVal data "distance_km") =
      .error (.valueError ("could not convert string to float: " ++ sglq ++ s ++ sglq)) := by
    simp [getVal, h1, pyFloat, hs]
  have hb := predictBody_distance_coercion_fail m data _ hreq hcar hd
  have hl : ("Invalid input format: " : String) ++ "could not convert string to float: " =
      "Invalid input format: could not convert string to float: " := rfl
  simp [predictEndpoint, hb, ← String.append_assoc, hl]

theorem endpoint_type_error (m : Model) (data : ReqData) (t c : String) (v2 v4 : Val)
    (h1 : List.lookup "distance_km" data = some (.other t))
    (h2 : List.lookup "weight_kg" data = some v2)
    (h3 : List.lookup "cargo_type" data = some (.str c))
    (h4 : List.lookup "urgency_days" data = some v4)
    (hc : c ∈ cargo_types) :
    predictEndpoint m data =
      .error 500 ("float() argument must be a string or a real number, not " ++
        sglq ++ t ++ sglq) := by
  have hreq := checkRequired_ok data _ _ _ _ h1 h2 h3 h4
  have hcar := checkCargo_ok data c h3 hc
  have hd : pyFloat (getVal data "distance_km") =
      .error (.typeError ("float() argument must be a string or a real number, not " ++
        sglq ++ t ++ sglq)) := by
    simp [getVal, h1, pyFloat]
  have hb := predictBody_distance_coercion_fail m data _ hreq hcar hd
  simp [predictEndpoint, hb, pyStr]

/-- C3 counterexample: the claim says every non-convertible numeric field
yields a 422 client error and never a 500.  A null distance_km makes
float raise TypeError, which only the except-Exception handler catches,
so the response has status 500. -/
theorem c3_counterexample :
    predictEndpoint mDefault reqNullDistance =
      .error 500 ("float() argument must be a string or a real number, not " ++
        sglq ++ "NoneType" ++ sglq) := by decide

/-- C3 amended: a string value that fails float conversion yields the
422 Invalid-input-format response, but a value that is neither a number
nor a string (null, array, object) raises TypeError and yields a 500. -/
theorem c3_amended_coercion_failures :
    (∀ (m : Model) (data : ReqData) (s c : String) (v2 v4 : Val),
      List.lookup "distance_km" data = some (.str s) →
      List.lookup "weight_kg" data = some v2 →
      List.lookup "cargo_type" data = some (.str c) →
      List.lookup "urgency_days" data = some v4 →
      c ∈ cargo_types → parseFloat s = none →
      predictEndpoint m data =
        .error 422 ("Invalid input format: could not convert string to float: " ++
          sglq ++ s ++ sglq)) ∧
    (∀ (m : Model) (data : ReqData) (t c : String) (v2 v4 : Val),
      List.lookup "distance_km" data = some (.other t) →
      List.lookup "weight_kg" data = some v2 →
      List.lookup "cargo_type" data = some (.str c) →
      List.lookup "urgency_days" data = some v4 →
      c ∈ cargo_types →
      predictEndpoint m data =
        .error 500 ("float() argument must be a string or a real number, not " ++
          sglq ++ t ++ sglq)) :=
  ⟨fun m data s c v2 v4 h1 h2 h3 h4 hc hs =>
      endpoint_invalid_format m data s c v2 v4 h1 h2 h3 h4 hc hs,
   fun m data t c v2 v4 h1 h2 h3 h4 hc =>
      endpoint_type_error m data t c v2 v4 h1 h2 h3 h4 hc⟩

/-- Witness for C3 amended: distance_km abc gives the 422, a JSON-array
distance_km gives the 500. -/
theorem c3_witness :
    predictEndpoint mDefault reqAbcDistance =
      .error 422 ("Invalid input format: could not convert string to float: " ++
        sglq ++ "abc" ++ sglq) ∧
    predictEndpoint mDefault reqListDistance =
      .error 500 ("float() argument must be a string or a real number, not " ++
        sglq ++ "list" ++ sglq) :=
  ⟨c3_amended_coercion_failures.1 mDefault reqAbcDistance "abc" "general"
      (.num 1) (.num 1) rfl rfl rfl rfl (by decide) (by decide),
   c3_amended_coercion_failures.2 mDefault reqListDistance "list" "general"
      (.num 1) (.num 1) rfl rfl rfl rfl (by decide)⟩

/-- C7 counterexample: the claim says any exception raised by the model
is surfaced as a 500, never as a client error.  But the except-ValueError
handler catches ValueError from anywhere in the try block, so a model
that raises ValueError produces a 422 Invalid-input-format response. -/
theorem c7_counterexample :
    predictEndpoint mRaisesValueError reqSpecExample =
      .error 422 "Invalid input format: Input contains NaN" := by decide

/-- C7 amended: after validation, schema drift (a feature name of the
model schema absent from the features dict) and any model exception
OTHER than ValueError surface as a 500 server error; a model-raised
ValueError is instead misclassified as the 422 client error. -/
theorem c7_amended_post_validation_failures :
    (∀ (m : Model) (data : ReqData) (feats : List (String × Rat)) (n : String),
      checkRequired data = .ok () → checkCargo data = .ok () →
      buildFeatures data = .ok feats →
      n ∈ m.feature_names → List.lookup n feats = none →
      ∃ msg, predictEndpoint m data = .error 500 msg) ∧
    (∀ (m : Model) (data : ReqData) (vec : List Rat) (e : PyExc),
      checkRequired data = .ok () → checkCargo data = .ok () →
      alignedVector data m.feature_names = .ok vec →
      m.predict vec = .error e → (∀ s, e ≠ .valueError s) →
      predictEndpoint m data = .error 500 (pyStr e)) := by
  constructor
  · intro m data feats n hreq hcar hbf hn hmiss
    have hmem : n ∈ m.feature_names.filter (fun nm => (List.lookup nm feats).isNone) :=
      List.mem_filter.mpr ⟨hn, by simp [hmiss]⟩
    have hne : ¬ (m.feature_names.filter
        (fun nm => (List.lookup nm feats).isNone)).isEmpty = true := by
      rw [List.isEmpty_iff]
      exact List.ne_nil_of_mem hmem
    have hal : alignFeatures feats m.feature_names =
        .error (.keyError (pyListStr (m.feature_names.filter
          fun nm => (List.lookup nm feats).isNone) ++ " not in index")) := by
      simp [alignFeatures, hne]
    have hb : predictBody m data =
        .error (.keyError (pyListStr (m.feature_names.filter
          fun nm => (List.lookup nm feats).isNone) ++ " not in index")) := by
      simp [predictBody, alignedVector, hreq, hcar, hbf, hal, ebind_ok, ebind_err]
    refine ⟨pyStr (.keyError (pyListStr (m.feature_names.filter
      fun nm => (List.lookup nm feats).isNone) ++ " not in index")), ?_⟩
    simp [predictEndpoint, hb]
  · intro m data vec e hreq hcar hal hp he
    have hb : predictBody m data = .error e := by
      simp [predictBody, hreq, hcar, hal, hp, ebind_ok, ebind_err]
    cases e with
    | valueError s => exact absurd rfl (he s)
    | httpException st d => simp [predictEndpoint, hb]
    | typeError s => simp [predictEndpoint, hb]
    | keyError s => simp [predictEndpoint, hb]
    | otherExc s => simp [predictEndpoint, hb]

/-- Witness for C7 amended: a drifted schema gives a 500, and a model
raising a non-ValueError exception gives a 500 carrying its message. -/
theorem c7_witness :
    (∃ msg, predictEndpoint mDrifted reqSpecExample = .error 500 msg) ∧
    predictEndpoint mRaisesOther reqSpecExample = .error 500 (pyStr (.otherExc "boom")) :=
  ⟨c7_amended_post_validation_failures.1 mDrifted reqSpecExample
      [("distance_km", 500), ("weight_kg", 2000), ("urgency_days", 5),
       ("cargo_type_perishable", 0), ("cargo_type_fragile", 1), ("cargo_type_general", 0)]
      "extra_feature" (by decide) (by decide) (by decide) (by decide) (by decide),
   c7_amended_post_validation_failures.2 mRaisesOther reqSpecExample
      [500, 2000, 5, 0, 1, 0] (.otherExc "boom")
      (by decide) (by decide) (by decide) rfl (fun s h => PyExc.noConfusion h)⟩

/-- C8 counterexample: the claim says every 422 client-error message
names the offending field.  For a coercion failure the detail embeds
the ValueError text, which names the offending value, and the field
name distance_km appears nowhere in it. -/
theorem c8_counterexample :
    predictEndpoint mDefault reqAbcDistance =
      .error 422 ("Invalid input format: could not convert string to float: " ++
        sglq ++ "abc" ++ sglq) ∧
    listContainsSub "distance_km".data
      ("Invalid input format: could not convert string to float: " ++
        sglq ++ "abc" ++ sglq).data = false := by decide

/-- C8 amended: the missing-field and invalid-cargo messages do name the
offending field, but the Invalid-input-format message instead embeds the
offending value (quoted), not the field name. -/
theorem c8_amended_format_message_names_value (m : Model) (data : ReqData)
    (s c : String) (v2 v4 : Val)
    (h1 : List.lookup "distance_km" data = some (.str s))
    (h2 : List.lookup "weight_kg" data = some v2)
    (h3 : List.lookup "cargo_type" data = some (.str c))
    (h4 : List.lookup "urgency_days" data = some v4)
    (hc : c ∈ cargo_types) (hs : parseFloat s = none) :
    predictEndpoint m data =
      .error 422 ("Invalid input format: could not convert string to float: " ++
        sglq ++ s ++ sglq) ∧
    listContainsSub (sglq ++ s ++ sglq).data
      ("Invalid input format: could not convert string to float: " ++
        sglq ++ s ++ sglq).data = true := by
  refine ⟨endpoint_invalid_format m data s c v2 v4 h1 h2 h3 h4 hc hs, ?_⟩
  have hdata :
      ("Invalid input format: could not convert string to float: " ++
        sglq ++ s ++ sglq).data =
      "Invalid input format: could not convert string to float: ".data ++
        (sglq ++ s ++ sglq).data := by
    simp [String.data_append, List.append_assoc]
  rw [hdata]
  exact listContainsSub_append_self _ _

/-- Witness for C8 amended at distance_km abc. -/
theorem c8_witness :
    predictEndpoint mC6 reqAbcDistance =
      .error 422 ("Invalid input format: could not convert string to float: " ++
        sglq ++ "abc" ++ sglq) ∧
    listContainsSub (sglq ++ "abc" ++ sglq).data
      ("Invalid input format: could not convert string to float: " ++
        sglq ++ "abc" ++ sglq).data = true :=
  c8_amended_format_message_names_value mC6 reqAbcDistance "abc" "general"
    (.num 1) (.num 1) rfl rfl rfl rfl (by decide) (by decide)

/-- C9: for a request with all four fields present, an out-of-set
cargo_type and a non-coercible numeric string, the response is derived
from the invalid-cargo-type check, not from the coercion failure: the
membership check runs before any numeric coercion.  Its detail mentions
the cargo message and not the Invalid-input-format one (the status is
500 rather than 422 because of the swallowed HTTPException, see C2). -/
theorem c9_cargo_check_precedes_coercion (m : Model) (data : ReqData)
    (s c : String) (v2 v4 : Val)
    (h1 : List.lookup "distance_km" data = some (.str s))
    (h2 : List.lookup "weight_kg" data = some v2)
    (h3 : List.lookup "cargo_type" data = some (.str c))
    (h4 : List.lookup "urgency_days" data = some v4)
    (hc : c ∉ cargo_types) (_hs : parseFloat s = none) :
    predictEndpoint m data = .error 500 ("422: " ++ invalidCargoDetail) ∧
    listContainsSub "Invalid cargo_type".data ("422: " ++ invalidCargoDetail).data = true ∧
    listContainsSub "Invalid input format".data ("422: " ++ invalidCargoDetail).data = false := by
  refine ⟨?_, by decide, by decide⟩
  have hreq := checkRequired_ok data _ _ _ _ h1 h2 h3 h4
  have hcar : checkCargo data = .error (.httpException 422 invalidCargoDetail) := by
    simp [checkCargo, getVal, h3, hc]
  have hb : predictBody m data = .error (.httpException 422 invalidCargoDetail) := by
    simp [predictBody, hreq, hcar, ebind_ok, ebind_err]
  simp [predictEndpoint, hb, pyStr]
  rw [show (toString (422 : Nat) ++ ": " : String) = "422: " from rfl]

/-- Witness for C9 at cargo hazardous plus distance abc. -/
theorem c9_witness :
    predictEndpoint mDefault reqHazardousAbc = .error 500 ("422: " ++ invalidCargoDetail) ∧
    listContainsSub "Invalid cargo_type".data ("422: " ++ invalidCargoDetail).data = true ∧
    listContainsSub "Invalid input format".data ("422: " ++ invalidCargoDetail).data = false :=
  c9_cargo_check_precedes_coercion mDefault reqHazardousAbc "abc" "hazardous"
    (.num 1) (.num 1) rfl rfl rfl rfl (by decide) (by decide)

/-- C10: the endpoint reads only the four required fields of the request,
so two requests that agree on those four fields produce identical
responses against the same model, whatever extra keys they carry. -/
theorem c10_extra_keys_ignored (m : Model) (d1 d2 : ReqData)
    (h : ∀ f ∈ required_fields, List.lookup f d1 = List.lookup f d2) :
    predictEndpoint m d1 = predictEndpoint m d2 := by
  have h1 := h "distance_km" (by decide)
  have h2 := h "weight_kg" (by decide)
  have h3 := h "cargo_type" (by decide)
  have h4 := h "urgency_days" (by decide)
  have hb : predictBody m d1 = predictBody m d2 := by
    simp only [predictBody, checkRequired, firstMissing, required_fields, checkCargo,
      getCargoStr, getVal, alignedVector, buildFeatures, h1, h2, h3, h4]
  simp [predictEndpoint, hb]

/-- Witness for C10: the example request with and without an extra key. -/
theorem c10_witness :
    predictEndpoint mDefault reqSpecExample = predictEndpoint mDefault reqWithExtra :=
  c10_extra_keys_ignored mDefault reqSpecExample reqWithExtra (by decide)
